import Mathlib

/-!
Verification development for the expression-evaluation and aggregation core
of the databend query engine excerpt.

The embedding follows the Rust sources:
- `src/common/datavalues/src/todos/data_array_comparison.rs`
- `src/common/functions/src/aggregators/aggregator_count.rs`
- `src/common/planners/src/plan_expression_action.rs`
- `src/fusequery/query/src/api/rpc/flight_client.rs`

Repository code that the sources call but that is not part of the excerpt
(type coercion, cast, scalar arithmetic, arrow kernels, schema lookup,
flight decoding) is modelled from the specification; each such definition
carries a doc comment starting with `Modelled from the spec:`.
-/

/-- Error codes used across the embedded core. The names follow the source
constructors where the source shows them (`IllegalDataType`,
`IllegalAggregateExp`) and the spec taxonomy of section 7 otherwise. -/
inductive ErrorCodes where
  | IllegalDataType (msg : String)
  | IllegalAggregateExp (msg : String)
  | UnknownColumn (msg : String)
  | UnknownFunction (msg : String)
  | TypeMismatch (msg : String)
  | CastOverflow (msg : String)
  | CastParseError (msg : String)
  | ShapeError (msg : String)
  | DivideByZero (msg : String)
  | FlightStreamError (msg : String)
  | DecodeError (msg : String)
deriving DecidableEq, Repr

/-- Logical data types of the columnar value model (spec section 3).
Floating point types are outside this integer/string model; no claim
exercises them. -/
inductive DataType where
  | Null
  | Boolean
  | Int8
  | Int16
  | Int32
  | Int64
  | UInt8
  | UInt16
  | UInt32
  | UInt64
  | Utf8
deriving DecidableEq, Repr

/-- Scalar values: a tagged union with exactly one active variant; numeric
variants carry an optional payload (`none` is a typed null), mirroring the
source `DataValue` enum. -/
inductive DataValue where
  | Null
  | Boolean (v : Option Bool)
  | Int8 (v : Option Int)
  | Int16 (v : Option Int)
  | Int32 (v : Option Int)
  | Int64 (v : Option Int)
  | UInt8 (v : Option Nat)
  | UInt16 (v : Option Nat)
  | UInt32 (v : Option Nat)
  | UInt64 (v : Option Nat)
  | Utf8 (v : Option String)
deriving DecidableEq, Repr

/-- Logical type of a scalar value, as `DataValue::data_type` in the repo. -/
def DataValue.data_type : DataValue → DataType
  | .Null => .Null
  | .Boolean _ => .Boolean
  | .Int8 _ => .Int8
  | .Int16 _ => .Int16
  | .Int32 _ => .Int32
  | .Int64 _ => .Int64
  | .UInt8 _ => .UInt8
  | .UInt16 _ => .UInt16
  | .UInt32 _ => .UInt32
  | .UInt64 _ => .UInt64
  | .Utf8 _ => .Utf8

/-- Signedness and bit width of an integer type, `none` for non-integers. -/
def type_signed_width : DataType → Option (Bool × Nat)
  | .Int8 => some (true, 8)
  | .Int16 => some (true, 16)
  | .Int32 => some (true, 32)
  | .Int64 => some (true, 64)
  | .UInt8 => some (false, 8)
  | .UInt16 => some (false, 16)
  | .UInt32 => some (false, 32)
  | .UInt64 => some (false, 64)
  | _ => none

/-- Integer type of a given signedness and width of the promotion lattice. -/
def make_int_type (signed : Bool) (w : Nat) : DataType :=
  match signed, w with
  | true, 8 => .Int8
  | true, 16 => .Int16
  | true, 32 => .Int32
  | false, 8 => .UInt8
  | false, 16 => .UInt16
  | false, 32 => .UInt32
  | false, 64 => .UInt64
  | _, _ => .Int64

/-- Whether an integer fits the value range of an integer type. -/
def in_range (t : DataType) (i : Int) : Bool :=
  match type_signed_width t with
  | some (true, w) => decide (-((2 : Int) ^ (w - 1)) ≤ i ∧ i < (2 : Int) ^ (w - 1))
  | some (false, w) => decide (0 ≤ i ∧ i < (2 : Int) ^ w)
  | none => false

/-- Numeric payload of a value as an integer: `none` when the variant is not
numeric, `some none` when it is a typed numeric null. -/
def value_payload_int : DataValue → Option (Option Int)
  | .Int8 v => some v
  | .Int16 v => some v
  | .Int32 v => some v
  | .Int64 v => some v
  | .UInt8 v => some (v.map Int.ofNat)
  | .UInt16 v => some (v.map Int.ofNat)
  | .UInt32 v => some (v.map Int.ofNat)
  | .UInt64 v => some (v.map Int.ofNat)
  | _ => none

/-- Numeric value of a given type carrying the given payload. -/
def make_numeric_value (t : DataType) (p : Option Int) : DataValue :=
  match t with
  | .Int8 => .Int8 p
  | .Int16 => .Int16 p
  | .Int32 => .Int32 p
  | .Int64 => .Int64 p
  | .UInt8 => .UInt8 (p.map Int.toNat)
  | .UInt16 => .UInt16 (p.map Int.toNat)
  | .UInt32 => .UInt32 (p.map Int.toNat)
  | .UInt64 => .UInt64 (p.map Int.toNat)
  | _ => .Null

/-- Typed null value of a target type. -/
def typed_null (t : DataType) : DataValue :=
  match t with
  | .Boolean => .Boolean none
  | .Utf8 => .Utf8 none
  | .Null => .Null
  | t => make_numeric_value t none

/-- Modelled from the spec: section 4.1 `coerce(a, b)` for the repository
function `data_type_coercion::equal_coercion`, which is not part of the
excerpt. Equal types coerce to themselves; two integers of one signedness
widen to the larger width; mixed signed/unsigned widen to a signed type
wide enough for both ranges; a textual type unifies only with a textual
type, otherwise the coercion fails with `TypeMismatch`. The real engine
promotes `UInt64` mixed with a signed integer to a float; floats are
outside this integer model, so that pairing is reported as a mismatch
here and is exercised by no claim. -/
def equal_coercion (a b : DataType) : Except ErrorCodes DataType :=
  if a = b then .ok a
  else
    match type_signed_width a, type_signed_width b with
    | some (sa, wa), some (sb, wb) =>
      if sa = sb then .ok (make_int_type sa (max wa wb))
      else
        let uw := if sa then wb else wa
        let sw := if sa then wa else wb
        let need := max sw (uw * 2)
        if need ≤ 64 then .ok (make_int_type true need)
        else .error (.TypeMismatch "cannot coerce unsigned 64-bit with a signed integer")
    | _, _ => .error (.TypeMismatch "unsupported type coercion")

/-- Modelled from the spec: section 4.1 `cast(value, target)` at scalar
granularity, for the repository cast kernels invoked by
`data_array_cast`, which are not part of the excerpt. Casting to the same
type is a no-op; integer-to-integer casts check the target range and fail
with `CastOverflow`; string-to-integer casts parse and fail with
`CastParseError`; integer-to-string casts render the value; nulls cast to
typed nulls; every other pairing fails with `TypeMismatch`. -/
def cast_value (v : DataValue) (t : DataType) : Except ErrorCodes DataValue :=
  if v.data_type = t then .ok v
  else if v = .Null then .ok (typed_null t)
  else if (type_signed_width t).isSome then
    match v with
    | .Utf8 (some s) =>
      match s.toInt? with
      | none => .error (.CastParseError "cannot parse string as integer")
      | some i =>
        if in_range t i then .ok (make_numeric_value t (some i))
        else .error (.CastOverflow "parsed value does not fit target type")
    | .Utf8 none => .ok (make_numeric_value t none)
    | v =>
      match value_payload_int v with
      | some (some i) =>
        if in_range t i then .ok (make_numeric_value t (some i))
        else .error (.CastOverflow "value does not fit target type")
      | some none => .ok (make_numeric_value t none)
      | none => .error (.TypeMismatch "unsupported cast source")
  else if t = .Utf8 then
    match value_payload_int v with
    | some (some i) => .ok (.Utf8 (some (toString i)))
    | some none => .ok (.Utf8 none)
    | none => .error (.TypeMismatch "unsupported cast to string")
  else .error (.TypeMismatch "unsupported cast target")

/-- Typed dense array: the embedding of an arrow `Series`, carrying its
element type and the ordered element values. -/
structure Series where
  dtype : DataType
  values : List DataValue
deriving DecidableEq, Repr

/-- Element type of a series, as `IGetDataType::get_data_type`. -/
def Series.get_data_type (s : Series) : DataType := s.dtype

/-- Error-short-circuiting elementwise map, the sequencing used by the
elementwise repository kernels. -/
def mapExcept (f : α → Except ErrorCodes β) : List α → Except ErrorCodes (List β)
  | [] => .ok []
  | x :: xs => do
    let y ← f x
    let ys ← mapExcept f xs
    .ok (y :: ys)

/-- Modelled from the spec: `DataValue::to_series_with_size`, replicating a
scalar into a dense series of the declared row count (spec section 3,
broadcast of a `Constant`). -/
def DataValue.to_series_with_size (v : DataValue) (n : Nat) : Except ErrorCodes Series :=
  .ok ⟨v.data_type, List.replicate n v⟩

/-- Modelled from the spec: `DataValue::from_array`, reading one element of
a series back as a scalar; an out-of-range index is an error. -/
def DataValue.from_array (s : Series) (i : Nat) : Except ErrorCodes DataValue :=
  match s.values.get? i with
  | some v => .ok v
  | none => .error (.ShapeError "index out of range reading array element")

/-- Modelled from the spec: `data_array_cast`, the elementwise column cast
of section 4.1; the first failing element aborts the cast. -/
def data_array_cast (s : Series) (t : DataType) : Except ErrorCodes Series :=
  (mapExcept (fun v => cast_value v t) s.values).map (fun vs => Series.mk t vs)

/-- Relational and pattern comparison operators of the comparison engine. -/
inductive DataValueComparisonOperator where
  | Eq
  | Lt
  | LtEq
  | Gt
  | GtEq
  | NotEq
  | Like
  | NotLike
deriving DecidableEq, Repr

/-- Modelled from the spec: SQL LIKE wildcard matching (section 4.4 of the
comparison engine): percent matches any sequence, underscore matches any
single character; other characters match themselves. -/
def likeMatch : List Char → List Char → Bool
  | [], [] => true
  | [], _ :: _ => false
  | p :: ps, [] => if p = '%' then likeMatch ps [] else false
  | p :: ps, c :: cs =>
    if p = '%' then likeMatch ps (c :: cs) || likeMatch (p :: ps) cs
    else if p = '_' then likeMatch ps cs
    else decide (p = c) && likeMatch ps cs
termination_by pat s => (pat.length, s.length)

/-- Truth of a relational operator given the ordering of the two operands;
the pattern operators are handled before this helper is consulted. -/
def relHolds (op : DataValueComparisonOperator) (o : Ordering) : Bool :=
  match op with
  | .Eq => o = .eq
  | .NotEq => !(o = .eq)
  | .Lt => o = .lt
  | .LtEq => !(o = .gt)
  | .Gt => o = .gt
  | .GtEq => !(o = .lt)
  | .Like => false
  | .NotLike => false

/-- Modelled from the spec: one elementwise step of the arrow comparison
kernels. Both operands have already been cast to the common type, so they
carry the same variant; a comparison against a null payload yields false
(a filtered-out row); `Like`/`NotLike` require textual operands and fail
with `TypeMismatch` otherwise (spec section 4.2). -/
def compareValues (op : DataValueComparisonOperator) (l r : DataValue) : Except ErrorCodes Bool :=
  match op with
  | .Like =>
    match l, r with
    | .Utf8 (some v), .Utf8 (some pat) => .ok (likeMatch pat.data v.data)
    | .Utf8 _, .Utf8 _ => .ok false
    | _, _ => .error (.TypeMismatch "like expects textual operands")
  | .NotLike =>
    match l, r with
    | .Utf8 (some v), .Utf8 (some pat) => .ok (!(likeMatch pat.data v.data))
    | .Utf8 _, .Utf8 _ => .ok false
    | _, _ => .error (.TypeMismatch "nlike expects textual operands")
  | op =>
    match l, r with
    | .Utf8 (some a), .Utf8 (some b) => .ok (relHolds op (compare a b))
    | .Utf8 _, .Utf8 _ => .ok false
    | .Boolean (some a), .Boolean (some b) => .ok (relHolds op (compare a b))
    | .Boolean _, .Boolean _ => .ok false
    | l, r =>
      match value_payload_int l, value_payload_int r with
      | some (some a), some (some b) => .ok (relHolds op (compare a b))
      | some _, some _ => .ok false
      | _, _ => .error (.TypeMismatch "cannot compare values of these types")

/-- Modelled from the spec: the `arrow_array_op` kernel macro — an
elementwise comparison of two arrays of equal length producing a boolean
array; mismatched lengths are a `ShapeError` (spec section 4.2, step 1). -/
def arrow_array_op (l r : Series) (op : DataValueComparisonOperator) : Except ErrorCodes Series :=
  if l.values.length = r.values.length then
    (mapExcept (fun p => compareValues op p.1 p.2) (l.values.zip r.values)).map
      (fun bs => Series.mk .Boolean (bs.map (fun b => DataValue.Boolean (some b))))
  else .error (.ShapeError "comparison arrays must have the same length")

/-- Modelled from the spec: the `arrow_array_op_scalar` kernel macro — an
elementwise comparison of each array element (left operand) against one
scalar (right operand). -/
def arrow_array_op_scalar (arr : Series) (scalar : DataValue) (op : DataValueComparisonOperator) :
    Except ErrorCodes Series :=
  (mapExcept (fun v => compareValues op v scalar) arr.values).map
    (fun bs => Series.mk .Boolean (bs.map (fun b => DataValue.Boolean (some b))))

/-- Modelled from the spec: the `arrow_array_utf8_op` kernel macro; the
textual check lives in the elementwise step. -/
def arrow_array_utf8_op (l r : Series) (op : DataValueComparisonOperator) :
    Except ErrorCodes Series :=
  arrow_array_op l r op

/-- Modelled from the spec: the `arrow_array_utf8_op_scalar` kernel macro. -/
def arrow_array_utf8_op_scalar (arr : Series) (scalar : DataValue)
    (op : DataValueComparisonOperator) : Except ErrorCodes Series :=
  arrow_array_op_scalar arr scalar op

/-- Columnar value: a dense array or a broadcast constant with a declared
replicate count, as the source `DataColumn`. -/
inductive DataColumn where
  | Array (series : Series)
  | Constant (scalar : DataValue) (rows : Nat)
deriving DecidableEq, Repr

namespace DataArrayComparison

/-- Embedding of `DataArrayComparison::data_array_comparison_op` from
`src/common/datavalues/src/todos/data_array_comparison.rs`, branch for
branch and kernel for kernel. -/
def data_array_comparison_op (op : DataValueComparisonOperator) (left right : DataColumn) :
    Except ErrorCodes Series :=
  match left, right with
  | .Array left_array, .Array right_array => do
    let coercion_type ← equal_coercion left_array.get_data_type right_array.get_data_type
    let left_array ← data_array_cast left_array coercion_type
    let right_array ← data_array_cast right_array coercion_type
    match op with
    | .Eq => arrow_array_op left_array right_array .Eq
    | .Lt => arrow_array_op left_array right_array .Lt
    | .LtEq => arrow_array_op left_array right_array .LtEq
    | .Gt => arrow_array_op left_array right_array .Gt
    | .GtEq => arrow_array_op left_array right_array .GtEq
    | .NotEq => arrow_array_op left_array right_array .NotEq
    | .Like => arrow_array_utf8_op left_array right_array .Like
    | .NotLike => arrow_array_utf8_op left_array right_array .NotLike
  | .Array array, .Constant scalar _ => do
    let coercion_type ← equal_coercion array.get_data_type scalar.data_type
    let left_array ← data_array_cast array coercion_type
    let right_array ← data_array_cast (← scalar.to_series_with_size 1) coercion_type
    let scalar ← DataValue.from_array right_array 0
    match op with
    | .Eq => arrow_array_op_scalar left_array scalar .Eq
    | .Lt => arrow_array_op_scalar left_array scalar .Lt
    | .LtEq => arrow_array_op_scalar left_array scalar .LtEq
    | .Gt => arrow_array_op_scalar left_array scalar .Gt
    | .GtEq => arrow_array_op_scalar left_array scalar .GtEq
    | .NotEq => arrow_array_op_scalar left_array scalar .NotEq
    | .Like => arrow_array_utf8_op_scalar left_array scalar .Like
    | .NotLike => arrow_array_utf8_op_scalar left_array scalar .NotLike
  | .Constant scalar _, .Array array => do
    let coercion_type ← equal_coercion array.get_data_type scalar.data_type
    let left_array ← data_array_cast (← scalar.to_series_with_size 1) coercion_type
    let right_array ← data_array_cast array coercion_type
    let scalar ← DataValue.from_array left_array 0
    match op with
    | .Eq => arrow_array_op_scalar right_array scalar .Eq
    | .Lt => arrow_array_op_scalar right_array scalar .Gt
    | .LtEq => arrow_array_op_scalar right_array scalar .GtEq
    | .Gt => arrow_array_op_scalar right_array scalar .Lt
    | .GtEq => arrow_array_op_scalar right_array scalar .LtEq
    | .NotEq => arrow_array_op_scalar right_array scalar .NotEq
    | .Like => arrow_array_utf8_op_scalar right_array scalar .Like
    | .NotLike => arrow_array_utf8_op_scalar right_array scalar .NotLike
  | .Constant left_scala rows, .Constant right_scalar _ => do
    let coercion_type ← equal_coercion left_scala.data_type right_scalar.data_type
    let left_array ← data_array_cast (← left_scala.to_series_with_size rows) coercion_type
    let right_array ← data_array_cast (← right_scalar.to_series_with_size rows) coercion_type
    match op with
    | .Eq => arrow_array_op left_array right_array .Eq
    | .Lt => arrow_array_op left_array right_array .Lt
    | .LtEq => arrow_array_op left_array right_array .LtEq
    | .Gt => arrow_array_op left_array right_array .Gt
    | .GtEq => arrow_array_op left_array right_array .GtEq
    | .NotEq => arrow_array_op left_array right_array .NotEq
    | .Like => arrow_array_utf8_op left_array right_array .Like
    | .NotLike => arrow_array_utf8_op left_array right_array .NotLike

end DataArrayComparison

/-- Mirroring of a relational operator as described by the spec for the
constant-left comparison branch: `Lt` and `Gt` swap, `LtEq` and `GtEq`
swap, every other operator is unchanged. -/
def mirror_comparison_operator : DataValueComparisonOperator → DataValueComparisonOperator
  | .Lt => .Gt
  | .LtEq => .GtEq
  | .Gt => .Lt
  | .GtEq => .LtEq
  | op => op

/-- Scalar arithmetic operators of spec section 4.3. -/
inductive DataValueArithmeticOperator where
  | Plus
  | Minus
  | Mul
  | Div
deriving DecidableEq, Repr

/-- Wrapping of an integer into the value range of an integer type
(two's-complement for signed types). -/
def wrap_value (t : DataType) (i : Int) : Int :=
  match type_signed_width t with
  | some (true, w) => (i + 2 ^ (w - 1)) % 2 ^ w - 2 ^ (w - 1)
  | some (false, w) => i % 2 ^ w
  | none => i

/-- Modelled from the spec: one arithmetic step on two numeric payloads of
the coerced type; division is truncated and division by zero fails. -/
def arith_payload (t : DataType) (op : DataValueArithmeticOperator) (a b : Int) :
    Except ErrorCodes Int :=
  match op with
  | .Plus => .ok (wrap_value t (a + b))
  | .Minus => .ok (wrap_value t (a - b))
  | .Mul => .ok (wrap_value t (a * b))
  | .Div =>
    if b = 0 then .error (.DivideByZero "division by zero")
    else .ok (wrap_value t (Int.tdiv a b))

/-- Modelled from the spec: section 4.3 `arith(op, a, b)` for the repository
function `data_value_arithmetic_op`, which is not part of the excerpt.
`Null` is the identity element of every operation rather than a propagated
absorbing value (`Plus(Null, x) = x`); otherwise both operands are coerced
via section 4.1, cast to the coerced type, and combined; a null payload on
either side yields a typed null result. -/
def data_value_arithmetic_op (op : DataValueArithmeticOperator) (a b : DataValue) :
    Except ErrorCodes DataValue :=
  match a, b with
  | .Null, r => .ok r
  | l, .Null => .ok l
  | l, r => do
    let coercion_type ← equal_coercion l.data_type r.data_type
    let lc ← cast_value l coercion_type
    let rc ← cast_value r coercion_type
    match value_payload_int lc, value_payload_int rc with
    | some (some x), some (some y) =>
      (arith_payload coercion_type op x y).map (fun z => make_numeric_value coercion_type (some z))
    | some _, some _ => .ok (make_numeric_value coercion_type none)
    | _, _ => .error (.TypeMismatch "arithmetic expects numeric operands")

/-- Data block as consumed by the aggregators: only the row count is
relevant to the embedded operations. -/
structure DataBlock where
  num_rows : Nat
deriving DecidableEq, Repr

/-- Outcome of a Rust computation that may panic instead of returning:
`panicked` models an unwinding panic (such as an out-of-bounds slice
index), which is distinct from returning an error value. -/
inductive PanicOr (α : Type) where
  | panicked
  | returned (val : α)
deriving DecidableEq, Repr

/-- Embedding of `AggregatorCountFunction` from
`src/common/functions/src/aggregators/aggregator_count.rs`: the slot index
and the running scalar state. The `arg` member of the source drives only
`eval`/`return_type`, which none of the embedded operations touch. -/
structure AggregatorCountFunction where
  depth : Nat
  state : DataValue
deriving DecidableEq, Repr

namespace AggregatorCountFunction

/-- Embedding of `AggregatorCountFunction::try_create`: slot 0, state
`Null`. -/
def try_create : AggregatorCountFunction :=
  { depth := 0, state := .Null }

/-- Embedding of `AggregatorCountFunction::set_depth`. -/
def set_depth (f : AggregatorCountFunction) (depth : Nat) : AggregatorCountFunction :=
  { f with depth := depth }

/-- Embedding of `AggregatorCountFunction::accumulate`: add the batch row
count (converted to an unsigned 64-bit value) to the running state with
the identity-preserving `Plus`. -/
def accumulate (f : AggregatorCountFunction) (block : DataBlock) :
    Except ErrorCodes AggregatorCountFunction :=
  (data_value_arithmetic_op .Plus f.state (.UInt64 (some (block.num_rows % 2 ^ 64)))).map
    (fun s => { f with state := s })

/-- Embedding of `AggregatorCountFunction::accumulate_result`. -/
def accumulate_result (f : AggregatorCountFunction) : Except ErrorCodes (List DataValue) :=
  .ok [f.state]

/-- Embedding of `AggregatorCountFunction::merge`: read the slot at
`self.depth` from the incoming partial-state vector with an unguarded
index — an out-of-bounds read is a panic, not an error value — and add it
to the running state with `Plus`. -/
def merge (f : AggregatorCountFunction) (states : List DataValue) :
    PanicOr (Except ErrorCodes AggregatorCountFunction) :=
  match states.get? f.depth with
  | none => .panicked
  | some val =>
    .returned ((data_value_arithmetic_op .Plus f.state val).map (fun s => { f with state := s }))

/-- Embedding of `AggregatorCountFunction::merge_result`. -/
def merge_result (f : AggregatorCountFunction) : Except ErrorCodes DataValue :=
  .ok f.state

/-- Sequential accumulation over a list of batches, as a worker folding its
input stream (spec section 4.5). -/
def accumulate_batches (f : AggregatorCountFunction) :
    List DataBlock → Except ErrorCodes AggregatorCountFunction
  | [] => .ok f
  | b :: rest => do
    let f2 ← accumulate f b
    accumulate_batches f2 rest

end AggregatorCountFunction

/-- Schema field: a (name, type, nullable) triple, as `DataField`. -/
structure DataField where
  name : String
  data_type : DataType
  nullable : Bool
deriving DecidableEq, Repr

/-- Schema: the ordered field sequence, as `DataSchema`. -/
structure DataSchema where
  fields : List DataField
deriving DecidableEq, Repr

/-- Modelled from the spec: `DataSchema::field_with_name` (section 3): look
up a field by name; an absent name is an `UnknownColumn` error, never a
silent default. -/
def DataSchema.field_with_name (schema : DataSchema) (name : String) :
    Except ErrorCodes DataField :=
  match schema.fields.find? (fun f => f.name == name) with
  | some f => .ok f
  | none => .error (.UnknownColumn ("Unable to get field named " ++ name))

/-- Scalar function implementation as resolved from the registry: only the
return-type rule is relevant to the embedded resolver. This embeds the
`IFunction` objects handed out by `FunctionFactory`. -/
structure IFunction where
  return_type : List DataType → Except ErrorCodes DataType

/-- Aggregate function implementation as resolved from the registry,
embedding the `IAggreagteFunction` objects (source spelling) handed out by
`AggregateFunctionFactory`. -/
structure IAggreagteFunction where
  return_type : List DataType → Except ErrorCodes DataType

/-- Registry lookup for scalar functions (`FunctionFactory::get`), passed
explicitly as spec section 9 prescribes; unregistered names fail. -/
def FunctionRegistry : Type := String → Except ErrorCodes IFunction

/-- Registry lookup for aggregate functions
(`AggregateFunctionFactory::get`). -/
def AggregateFunctionRegistry : Type := String → Except ErrorCodes IAggreagteFunction

/-- Expression tree, as the source `ExpressionAction` enum. The source
variant `Sort` is named `SortExpr` here because `Sort` is reserved in
Lean. -/
inductive ExpressionAction where
  | Alias (name : String) (expr : ExpressionAction)
  | Column (name : String)
  | Literal (value : DataValue)
  | ScalarFunction (op : String) (args : List ExpressionAction)
  | AggregateFunction (op : String) (args : List ExpressionAction)
  | SortExpr (expr : ExpressionAction) (asc : Bool) (nulls_first : Bool)
  | Wildcard
  | Cast (expr : ExpressionAction) (data_type : DataType)

/-- Modelled from the spec: the alternate `Display` rendering of a scalar
value used by the `Literal` arm of the expression `Debug` instance
(rendering grammar of spec section 4.4, `Literal(v) -> render(v)`). -/
def display_data_value : DataValue → String
  | .Null => "NULL"
  | .Boolean none => "NULL"
  | .Boolean (some b) => if b then "true" else "false"
  | .Int8 none => "NULL"
  | .Int8 (some i) => toString i
  | .Int16 none => "NULL"
  | .Int16 (some i) => toString i
  | .Int32 none => "NULL"
  | .Int32 (some i) => toString i
  | .Int64 none => "NULL"
  | .Int64 (some i) => toString i
  | .UInt8 none => "NULL"
  | .UInt8 (some n) => toString n
  | .UInt16 none => "NULL"
  | .UInt16 (some n) => toString n
  | .UInt32 none => "NULL"
  | .UInt32 (some n) => toString n
  | .UInt64 none => "NULL"
  | .UInt64 (some n) => toString n
  | .Utf8 none => "NULL"
  | .Utf8 (some s) => s

/-- Derived `Debug` rendering of a data type: the bare constructor name. -/
def debug_data_type : DataType → String
  | .Null => "Null"
  | .Boolean => "Boolean"
  | .Int8 => "Int8"
  | .Int16 => "Int16"
  | .Int32 => "Int32"
  | .Int64 => "Int64"
  | .UInt8 => "UInt8"
  | .UInt16 => "UInt16"
  | .UInt32 => "UInt32"
  | .UInt64 => "UInt64"
  | .Utf8 => "Utf8"

mutual

/-- Embedding of the manual `fmt::Debug` instance for `ExpressionAction`,
which the source also uses as the expression column name. A vector of
arguments is rendered with the Rust list debug format: the comma-joined
element renderings enclosed in square brackets. -/
def fmtDebug : ExpressionAction → String
  | .Alias a v => fmtDebug v ++ " as " ++ a
  | .Column v => v
  | .Literal v => display_data_value v
  | .ScalarFunction op args => op ++ "(" ++ fmtDebugVec args ++ ")"
  | .AggregateFunction op args => op ++ "(" ++ fmtDebugVec args ++ ")"
  | .SortExpr expr _ _ => fmtDebug expr
  | .Wildcard => "*"
  | .Cast expr t => "cast(" ++ fmtDebug expr ++ " as " ++ debug_data_type t ++ ")"

/-- Rust `Debug` rendering of a `Vec` of expressions: bracketed list. -/
def fmtDebugVec (args : List ExpressionAction) : String :=
  "[" ++ fmtDebugItems args ++ "]"

/-- Comma-joined renderings of the list elements. -/
def fmtDebugItems : List ExpressionAction → String
  | [] => ""
  | [e] => fmtDebug e
  | e :: rest => fmtDebug e ++ ", " ++ fmtDebugItems rest

end

namespace ExpressionAction

/-- Embedding of `ExpressionAction::column_name`: the alias string for an
`Alias` node; the `Debug` rendering for every other variant. -/
def column_name : ExpressionAction → String
  | .Alias name _ => name
  | e => fmtDebug e

/-- Embedding of `ExpressionAction::nullable`: the source returns
`Ok(false)` for every expression and schema (marked TODO there). -/
def nullable (_e : ExpressionAction) (_input_schema : DataSchema) : Except ErrorCodes Bool :=
  .ok false

mutual

/-- Embedding of `ExpressionAction::to_data_type`, with the two registries
passed explicitly. -/
def to_data_type (ff : FunctionRegistry) (aff : AggregateFunctionRegistry)
    (input_schema : DataSchema) : ExpressionAction → Except ErrorCodes DataType
  | .Alias _ expr => to_data_type ff aff input_schema expr
  | .Column s => (input_schema.field_with_name s).map (fun f => f.data_type)
  | .Literal v => .ok v.data_type
  | .ScalarFunction op args => do
    let arg_types ← arg_data_types ff aff input_schema args
    let func ← ff op
    func.return_type arg_types
  | .AggregateFunction op args => do
    let arg_types ← arg_data_types ff aff input_schema args
    let func ← aff op
    func.return_type arg_types
  | .Wildcard =>
    .error (.IllegalDataType "Wildcard expressions are not valid to get return type")
  | .Cast _ data_type => .ok data_type
  | .SortExpr expr _ _ => to_data_type ff aff input_schema expr

/-- Argument types resolved left to right; the first failure
short-circuits, as the source `for` loop with `?` does. -/
def arg_data_types (ff : FunctionRegistry) (aff : AggregateFunctionRegistry)
    (input_schema : DataSchema) : List ExpressionAction → Except ErrorCodes (List DataType)
  | [] => .ok []
  | e :: rest => do
    let t ← to_data_type ff aff input_schema e
    let ts ← arg_data_types ff aff input_schema rest
    .ok (t :: ts)

end

/-- Embedding of `ExpressionAction::to_data_field`. -/
def to_data_field (ff : FunctionRegistry) (aff : AggregateFunctionRegistry)
    (input_schema : DataSchema) (e : ExpressionAction) : Except ErrorCodes DataField :=
  let name := e.column_name
  (to_data_type ff aff input_schema e).bind (fun return_type =>
    (nullable e input_schema).map (fun n => DataField.mk name return_type n))

/-- Embedding of `ExpressionAction::to_aggregate_function`. -/
def to_aggregate_function (aff : AggregateFunctionRegistry) :
    ExpressionAction → Except ErrorCodes (IAggreagteFunction × List String)
  | .AggregateFunction op args =>
    (aff op).map (fun func => (func, args.map column_name))
  | e =>
    .error (.IllegalAggregateExp ("Expression " ++ fmtDebug e ++ " is not an aggregate function"))

/-- Whether a node is the `AggregateFunction` variant. -/
def isAggregateFunctionExpr : ExpressionAction → Bool
  | .AggregateFunction _ _ => true
  | _ => false

end ExpressionAction

/-- Modelled from the spec: one message of a flight result stream (spec
section 6): a stream carries a schema header first and typed row batches
after it; a payload that decodes as neither is opaque. -/
inductive FlightData where
  | schemaData (schema : DataSchema)
  | batchData (schema : DataSchema) (num_rows : Nat)
  | opaqueData
deriving DecidableEq, Repr

/-- Modelled from the spec: `DataSchema::try_from(&FlightData)` — decoding
the first stream message as the output schema; a non-schema payload fails. -/
def data_schema_try_from : FlightData → Except ErrorCodes DataSchema
  | .schemaData s => .ok s
  | _ => .error (.DecodeError "flight message does not carry a schema")

/-- Modelled from the spec: `flight_data_to_arrow_batch` followed by
`DataBlock::try_from_arrow_batch` — decoding a stream message as a typed
row batch against the schema carried by the first message; a batch for a
different schema or a non-batch payload fails. -/
def flight_data_to_block (fd : FlightData) (schema : DataSchema) : Except ErrorCodes DataBlock :=
  match fd with
  | .batchData s n =>
    if s = schema then .ok (DataBlock.mk n)
    else .error (.DecodeError "batch does not conform to the result schema")
  | _ => .error (.DecodeError "flight message does not carry a batch")

namespace FlightClient

/-- Embedding of `FlightClient::execute` from
`src/fusequery/query/src/api/rpc/flight_client.rs`. The response stream is
a finite list of message-fetch outcomes (a transport error or a payload);
an empty stream bails with the source message, a failed first fetch or a
failed schema decode propagates its error, and a successful call returns
the schema together with the remaining messages each decoded as a row
batch against that one schema. `action_debug` is the `Debug` rendering of
the serialized query action used in the bail message. -/
def execute (action_debug : String) (msgs : List (Except ErrorCodes FlightData)) :
    Except ErrorCodes (DataSchema × List (Except ErrorCodes DataBlock)) :=
  match msgs with
  | [] =>
    .error (.FlightStreamError
      ("Can not receive data from flight server, action:" ++ action_debug))
  | first :: rest => do
    let flight_data ← first
    let schema ← data_schema_try_from flight_data
    .ok (schema, rest.map (fun m => m.bind (fun fd => flight_data_to_block fd schema)))

end FlightClient

/-! Helper lemmas about the `Except` monad sequencing used throughout. -/

theorem except_bind_ok (a : α) (f : α → Except ErrorCodes β) :
    (Except.ok a >>= f) = f a := rfl

theorem except_bind_error (e : ErrorCodes) (f : α → Except ErrorCodes β) :
    ((Except.error e : Except ErrorCodes α) >>= f) = .error e := rfl

theorem except_bind_eq_ok {x : Except ErrorCodes α} {f : α → Except ErrorCodes β} {r : β}
    (h : (x >>= f) = .ok r) : ∃ a, x = .ok a ∧ f a = .ok r := by
  cases x with
  | error e => exact absurd h (by simp [except_bind_error])
  | ok a => exact ⟨a, rfl, h⟩

/-- C4: for every expression, every data type and every input schema (and
every pair of registries), `to_data_type` applied to `Cast(expr, T)`
returns `Ok(T)` unconditionally — in particular it succeeds even when the
inner expression itself would fail to resolve. -/
theorem cast_to_data_type_unconditional :
    ∀ (ff : FunctionRegistry) (aff : AggregateFunctionRegistry) (schema : DataSchema)
      (expr : ExpressionAction) (t : DataType),
      ExpressionAction.to_data_type ff aff schema (.Cast expr t) = .ok t := by
  intro ff aff schema expr t
  simp [ExpressionAction.to_data_type]

/-- C7: for every input schema and registries, `to_data_type` applied to
the `Wildcard` expression fails with the illegal-expression error of the
source (`ErrorCodes::IllegalDataType`); a wildcard is never assigned a
type and never silently defaulted. -/
theorem wildcard_to_data_type_fails :
    ∀ (ff : FunctionRegistry) (aff : AggregateFunctionRegistry) (schema : DataSchema),
      ExpressionAction.to_data_type ff aff schema .Wildcard
        = .error (.IllegalDataType "Wildcard expressions are not valid to get return type") := by
  intro ff aff schema
  simp [ExpressionAction.to_data_type]

/-- C3 counterexample: `column_name` renders the argument vector of a
scalar function with the Rust list debug format, so the scalar-function
example of the claim fails: the rendering is not the plain comma-joined
form the claim states. -/
theorem scalar_function_column_name_counterexample :
    ExpressionAction.column_name (.ScalarFunction "abs" [.Column "x"]) ≠ "abs(x)" := by
  simp only [ExpressionAction.column_name, fmtDebug, fmtDebugVec, fmtDebugItems]
  decide

/-- C3 (amended): `column_name` returns exactly the alias string for an
`Alias` node, and for a `ScalarFunction` node returns the operator name
followed, in parentheses, by the Rust vector debug rendering of the
arguments — the comma-joined renderings enclosed in square brackets — so
the alias example yields the alias and the scalar-function example yields
the bracketed form. -/
theorem column_name_rendering :
    (∀ (name : String) (e : ExpressionAction),
        ExpressionAction.column_name (.Alias name e) = name)
    ∧ (∀ (op : String) (args : List ExpressionAction),
        ExpressionAction.column_name (.ScalarFunction op args)
          = op ++ "(" ++ fmtDebugVec args ++ ")")
    ∧ ExpressionAction.column_name (.Alias "e" (.Column "x")) = "e"
    ∧ ExpressionAction.column_name (.ScalarFunction "abs" [.Column "x"]) = "abs([x])" := by
  refine ⟨fun name e => rfl, fun op args => ?_, rfl, ?_⟩
  · simp [ExpressionAction.column_name, fmtDebug]
  · simp only [ExpressionAction.column_name, fmtDebug, fmtDebugVec, fmtDebugItems]
    decide

/-- C10: `nullable` returns `Ok(false)` for every expression and schema, so
`to_data_field` always produces a non-nullable field — even for a `Column`
expression whose schema field is declared nullable. -/
theorem nullable_always_false :
    (∀ (e : ExpressionAction) (schema : DataSchema), e.nullable schema = .ok false)
    ∧ (∀ (ff : FunctionRegistry) (aff : AggregateFunctionRegistry) (schema : DataSchema)
        (e : ExpressionAction) (f : DataField),
        ExpressionAction.to_data_field ff aff schema e = .ok f → f.nullable = false)
    ∧ (∀ (ff : FunctionRegistry) (aff : AggregateFunctionRegistry) (name : String)
        (t : DataType),
        ExpressionAction.to_data_field ff aff ⟨[⟨name, t, true⟩]⟩ (.Column name)
          = .ok ⟨name, t, false⟩) := by
  refine ⟨fun e schema => rfl, ?_, ?_⟩
  · intro ff aff schema e f h
    unfold ExpressionAction.to_data_field at h
    cases ht : ExpressionAction.to_data_type ff aff schema e with
    | error e2 => rw [ht] at h; exact absurd h (by simp [Except.bind])
    | ok rt =>
      rw [ht] at h
      simp [Except.bind, ExpressionAction.nullable, Except.map] at h
      rw [← h]
  · intro ff aff name t
    simp [ExpressionAction.to_data_field, ExpressionAction.to_data_type,
      ExpressionAction.column_name, fmtDebug, DataSchema.field_with_name, List.find?,
      ExpressionAction.nullable, Except.bind, Except.map]

/-- C10 witness: the second part applied at a concrete nullable column. -/
theorem nullable_always_false_witness :
    DataField.nullable ⟨"x", .Int32, false⟩ = false := by
  exact nullable_always_false.2.1 (fun _ => .error (.UnknownFunction "none"))
    (fun _ => .error (.UnknownFunction "none")) ⟨[⟨"x", .Int32, true⟩]⟩ (.Column "x")
    ⟨"x", .Int32, false⟩
    (by simp [ExpressionAction.to_data_field, ExpressionAction.to_data_type,
      ExpressionAction.column_name, fmtDebug, DataSchema.field_with_name, List.find?,
      ExpressionAction.nullable, Except.bind, Except.map])

/-- C6: `to_aggregate_function` succeeds only on an `AggregateFunction`
node, where it resolves the operator via the aggregate registry and
returns the implementation together with the `column_name` of each
argument in argument order; every other variant fails with the
not-an-aggregate error of the source (`ErrorCodes::IllegalAggregateExp`). -/
theorem to_aggregate_function_spec :
    (∀ (aff : AggregateFunctionRegistry) (op : String) (args : List ExpressionAction),
        ExpressionAction.to_aggregate_function aff (.AggregateFunction op args)
          = (aff op).map (fun func => (func, args.map ExpressionAction.column_name)))
    ∧ (∀ (aff : AggregateFunctionRegistry) (e : ExpressionAction),
        ExpressionAction.isAggregateFunctionExpr e = false →
        ExpressionAction.to_aggregate_function aff e
          = .error (.IllegalAggregateExp
              ("Expression " ++ fmtDebug e ++ " is not an aggregate function")))
    ∧ (∀ (aff : AggregateFunctionRegistry) (e : ExpressionAction)
        (res : IAggreagteFunction × List String),
        ExpressionAction.to_aggregate_function aff e = .ok res →
        ExpressionAction.isAggregateFunctionExpr e = true) := by
  refine ⟨fun aff op args => rfl, ?_, ?_⟩
  · intro aff e h
    cases e <;> simp_all [ExpressionAction.to_aggregate_function,
      ExpressionAction.isAggregateFunctionExpr]
  · intro aff e res h
    cases e <;> simp_all [ExpressionAction.to_aggregate_function,
      ExpressionAction.isAggregateFunctionExpr]

/-- C6 witness: both failing and succeeding directions at concrete
inputs. -/
theorem to_aggregate_function_spec_witness :
    ExpressionAction.to_aggregate_function (fun _ => .ok ⟨fun _ => .ok .UInt64⟩) .Wildcard
      = .error (.IllegalAggregateExp
          ("Expression " ++ fmtDebug .Wildcard ++ " is not an aggregate function"))
    ∧ ExpressionAction.isAggregateFunctionExpr (.AggregateFunction "count" []) = true := by
  constructor
  · exact to_aggregate_function_spec.2.1 (fun _ => .ok ⟨fun _ => .ok .UInt64⟩) .Wildcard rfl
  · exact to_aggregate_function_spec.2.2 (fun _ => .ok ⟨fun _ => .ok .UInt64⟩)
      (.AggregateFunction "count" []) (⟨fun _ => .ok .UInt64⟩, []) rfl

/-- C8: `execute` fails when the response stream yields no first message at
all; a failed first fetch propagates its error; when a first message is
present it is decoded as the schema header, and every subsequent stream
message is decoded as a typed row batch against that one schema — so a
successful result is always a (possibly empty) stream of batches decoded
against the schema carried by the first message. -/
theorem flight_execute_spec :
    (∀ (action : String),
        FlightClient.execute action []
          = .error (.FlightStreamError
              ("Can not receive data from flight server, action:" ++ action)))
    ∧ (∀ (action : String) (e : ErrorCodes) (rest : List (Except ErrorCodes FlightData)),
        FlightClient.execute action (.error e :: rest) = .error e)
    ∧ (∀ (action : String) (fd : FlightData) (rest : List (Except ErrorCodes FlightData)),
        FlightClient.execute action (.ok fd :: rest)
          = (data_schema_try_from fd).map (fun schema =>
              (schema, rest.map (fun m => m.bind (fun fd2 => flight_data_to_block fd2 schema)))))
    ∧ (∀ (action : String) (msgs : List (Except ErrorCodes FlightData)) (schema : DataSchema)
        (blocks : List (Except ErrorCodes DataBlock)),
        FlightClient.execute action msgs = .ok (schema, blocks) →
        ∃ fd rest, msgs = .ok fd :: rest ∧ data_schema_try_from fd = .ok schema ∧
          blocks = rest.map (fun m => m.bind (fun fd2 => flight_data_to_block fd2 schema))) := by
  refine ⟨fun action => rfl, fun action e rest => rfl, ?_, ?_⟩
  · intro action fd rest
    cases h : data_schema_try_from fd <;>
      simp [FlightClient.execute, h, except_bind_ok, except_bind_error, Except.map]
  · intro action msgs schema blocks h
    match msgs with
    | [] => exact absurd h (by simp [FlightClient.execute])
    | .error e :: rest => exact absurd h (by simp [FlightClient.execute, except_bind_error])
    | .ok fd :: rest =>
      cases hd : data_schema_try_from fd with
      | error e =>
        rw [FlightClient.execute, except_bind_ok, hd] at h
        exact absurd h (by simp [except_bind_error])
      | ok s =>
        rw [FlightClient.execute, except_bind_ok, hd, except_bind_ok] at h
        obtain ⟨h1, h2⟩ := by simpa using h
        subst h1
        exact ⟨fd, rest, rfl, hd, h2.symm⟩

/-- C8 witness: a concrete stream of a schema header followed by one
conforming batch. -/
theorem flight_execute_spec_witness :
    ∃ (fd : FlightData) (rest : List (Except ErrorCodes FlightData)),
      ([.ok (FlightData.schemaData ⟨[]⟩), .ok (.batchData ⟨[]⟩ 2)]
          : List (Except ErrorCodes FlightData)) = .ok fd :: rest
      ∧ data_schema_try_from fd = .ok ⟨[]⟩
      ∧ ([.ok ⟨2⟩] : List (Except ErrorCodes DataBlock))
          = rest.map (fun m => m.bind (fun fd2 => flight_data_to_block fd2 ⟨[]⟩)) := by
  exact flight_execute_spec.2.2.2 "action" _ ⟨[]⟩ [.ok ⟨2⟩] (by rfl)

/-! Helper lemmas about the identity-preserving scalar `Plus`. -/

theorem plus_null_left (v : DataValue) :
    data_value_arithmetic_op .Plus .Null v = .ok v := by
  cases v <;> rfl

theorem plus_uint64 (a b : Nat) :
    data_value_arithmetic_op .Plus (.UInt64 (some a)) (.UInt64 (some b))
      = .ok (.UInt64 (some ((a + b) % 2 ^ 64))) := by
  simp only [data_value_arithmetic_op, equal_coercion, cast_value, value_payload_int,
    arith_payload, wrap_value, make_numeric_value, type_signed_width, DataValue.data_type,
    Except.map, except_bind_ok, reduceIte, Option.map_some, Option.map_some']
  simp only [Except.ok.injEq, DataValue.UInt64.injEq, Option.some.injEq]
  simp only [Int.ofNat_eq_natCast]
  omega

theorem accumulate_uint64 (d a : Nat) (b : DataBlock) :
    AggregatorCountFunction.accumulate ⟨d, .UInt64 (some a)⟩ b
      = .ok ⟨d, .UInt64 (some ((a + b.num_rows) % 2 ^ 64))⟩ := by
  simp only [AggregatorCountFunction.accumulate, plus_uint64, Except.map]
  have : (a + b.num_rows % 2 ^ 64) % 2 ^ 64 = (a + b.num_rows) % 2 ^ 64 := by omega
  rw [this]

theorem accumulate_from_null (d : Nat) (b : DataBlock) :
    AggregatorCountFunction.accumulate ⟨d, .Null⟩ b
      = .ok ⟨d, .UInt64 (some (b.num_rows % 2 ^ 64))⟩ := by
  simp [AggregatorCountFunction.accumulate, plus_null_left, Except.map]

theorem accumulate_batches_uint64 :
    ∀ (l : List DataBlock) (d a : Nat), a < 2 ^ 64 →
      AggregatorCountFunction.accumulate_batches ⟨d, .UInt64 (some a)⟩ l
        = .ok ⟨d, .UInt64 (some ((a + (l.map DataBlock.num_rows).sum) % 2 ^ 64))⟩ := by
  intro l
  induction l with
  | nil =>
    intro d a ha
    simp only [AggregatorCountFunction.accumulate_batches, List.map_nil, List.sum_nil,
      Nat.add_zero]
    rw [Nat.mod_eq_of_lt ha]
  | cons b rest ih =>
    intro d a ha
    simp only [AggregatorCountFunction.accumulate_batches, accumulate_uint64, except_bind_ok,
      List.map_cons, List.sum_cons]
    rw [ih d ((a + b.num_rows) % 2 ^ 64) (by omega)]
    simp only [Except.ok.injEq, AggregatorCountFunction.mk.injEq, DataValue.UInt64.injEq,
      Option.some.injEq, true_and]
    omega

/-- C2: starting from the created accumulator (state `Null`), accumulating
batches whose row counts are 3, 4 and 5 in any order and then calling
`merge_result` yields 12; likewise merging the partial states 5 and 7 with
the accumulator at slot 0 and then calling `merge_result` yields 12 —
`accumulate` and `merge` combine with a `Plus` for which `Null` is the
identity element rather than a propagated absorbing value. -/
theorem count_accumulate_and_merge :
    (∀ (l : List DataBlock), (l.map DataBlock.num_rows).Perm [3, 4, 5] →
        (AggregatorCountFunction.accumulate_batches .try_create l).bind
            AggregatorCountFunction.merge_result = .ok (.UInt64 (some 12)))
    ∧ AggregatorCountFunction.merge .try_create [.UInt64 (some 5)]
        = .returned (.ok ⟨0, .UInt64 (some 5)⟩)
    ∧ AggregatorCountFunction.merge ⟨0, .UInt64 (some 5)⟩ [.UInt64 (some 7)]
        = .returned (.ok ⟨0, .UInt64 (some 12)⟩)
    ∧ AggregatorCountFunction.merge_result ⟨0, .UInt64 (some 12)⟩ = .ok (.UInt64 (some 12))
    ∧ (∀ (v : DataValue), data_value_arithmetic_op .Plus .Null v = .ok v) := by
  refine ⟨?_, by rfl, by rfl, by rfl, plus_null_left⟩
  intro l hperm
  match l with
  | [] => exact absurd hperm.length_eq (by simp)
  | b :: rest =>
    have hsum : b.num_rows + (rest.map DataBlock.num_rows).sum = 12 := by
      have := hperm.sum_eq
      simpa using this
    show (AggregatorCountFunction.accumulate_batches ⟨0, .Null⟩ (b :: rest)).bind
        AggregatorCountFunction.merge_result = .ok (.UInt64 (some 12))
    rw [AggregatorCountFunction.accumulate_batches, accumulate_from_null, except_bind_ok,
      accumulate_batches_uint64 rest 0 (b.num_rows % 2 ^ 64) (by omega)]
    have : (b.num_rows % 2 ^ 64 + (rest.map DataBlock.num_rows).sum) % 2 ^ 64 = 12 := by
      omega
    rw [this]
    rfl

/-- C2 witness: the batch order 4, 3, 5 — a permutation of 3, 4, 5. -/
theorem count_accumulate_and_merge_witness :
    (AggregatorCountFunction.accumulate_batches .try_create [⟨4⟩, ⟨3⟩, ⟨5⟩]).bind
        AggregatorCountFunction.merge_result = .ok (.UInt64 (some 12)) :=
  count_accumulate_and_merge.1 [⟨4⟩, ⟨3⟩, ⟨5⟩] (by decide)

/-- C9: `merge` reads the slot `states[depth]` (depth 0 at creation, or as
set by the most recent `set_depth`) with an unguarded index: whenever
`states.length > depth` the out-of-bounds branch is unreachable and
`merge` adds exactly `states[depth]` to the local state — its result is
unchanged by altering any other slot — while a partial-state vector of
length at most `depth` makes the slot read fall outside the vector,
which panics rather than returning an error value. -/
theorem count_merge_slot_behavior :
    (∀ (f : AggregatorCountFunction) (states : List DataValue)
        (h : f.depth < states.length),
        AggregatorCountFunction.merge f states
          = .returned ((data_value_arithmetic_op .Plus f.state (states.get ⟨f.depth, h⟩)).map
              (fun s => { f with state := s })))
    ∧ (∀ (f : AggregatorCountFunction) (states states2 : List DataValue),
        states.get? f.depth = states2.get? f.depth →
        AggregatorCountFunction.merge f states = AggregatorCountFunction.merge f states2)
    ∧ (∀ (f : AggregatorCountFunction) (states : List DataValue),
        states.length ≤ f.depth → AggregatorCountFunction.merge f states = .panicked)
    ∧ AggregatorCountFunction.try_create.depth = 0
    ∧ (∀ (f : AggregatorCountFunction) (d : Nat), (f.set_depth d).depth = d) := by
  refine ⟨?_, ?_, ?_, rfl, fun f d => rfl⟩
  · intro f states h
    simp only [AggregatorCountFunction.merge, List.get?_eq_getElem?,
      List.getElem?_eq_getElem h, List.get_eq_getElem]
  · intro f states states2 h
    simp only [List.get?_eq_getElem?] at h
    simp only [AggregatorCountFunction.merge, List.get?_eq_getElem?, h]
  · intro f states h
    have hg : states[f.depth]? = none := List.getElem?_eq_none h
    simp only [AggregatorCountFunction.merge, List.get?_eq_getElem?, hg]

/-- C9 witness: a length-one vector at slot 0 is read and combined; the
empty vector panics. -/
theorem count_merge_slot_behavior_witness :
    AggregatorCountFunction.merge ⟨0, .UInt64 (some 2)⟩ [.UInt64 (some 3)]
      = .returned (.ok ⟨0, .UInt64 (some 5)⟩)
    ∧ AggregatorCountFunction.merge ⟨1, .Null⟩ [.UInt64 (some 3)] = .panicked := by
  constructor
  · have h := count_merge_slot_behavior.1 ⟨0, .UInt64 (some 2)⟩ [.UInt64 (some 3)]
      (by decide)
    rw [h]
    rfl
  · exact count_merge_slot_behavior.2.2.1 ⟨1, .Null⟩ [.UInt64 (some 3)] (by decide)

/-! Length lemmas for the elementwise kernels. -/

theorem mapExcept_ok_length {f : α → Except ErrorCodes β} :
    ∀ {l : List α} {r : List β}, mapExcept f l = .ok r → r.length = l.length := by
  intro l
  induction l with
  | nil =>
    intro r h
    simp only [mapExcept] at h
    cases h
    rfl
  | cons x xs ih =>
    intro r h
    simp only [mapExcept] at h
    obtain ⟨y, hy, h⟩ := except_bind_eq_ok h
    obtain ⟨ys, hys, h⟩ := except_bind_eq_ok h
    cases h
    simp [ih hys]

theorem data_array_cast_ok_length {s : Series} {t : DataType} {s2 : Series}
    (h : data_array_cast s t = .ok s2) : s2.values.length = s.values.length := by
  unfold data_array_cast at h
  cases hm : mapExcept (fun v => cast_value v t) s.values with
  | error e => rw [hm] at h; exact absurd h (by simp [Except.map])
  | ok vs =>
    rw [hm] at h
    simp only [Except.map, Except.ok.injEq] at h
    rw [← h]
    exact mapExcept_ok_length hm

theorem arrow_array_op_ok_length {l r : Series} {op : DataValueComparisonOperator}
    {res : Series} (h : arrow_array_op l r op = .ok res) :
    res.values.length = l.values.length := by
  unfold arrow_array_op at h
  by_cases hl : l.values.length = r.values.length
  · rw [if_pos hl] at h
    cases hm : mapExcept (fun p => compareValues op p.1 p.2) (l.values.zip r.values) with
    | error e => rw [hm] at h; exact absurd h (by simp [Except.map])
    | ok bs =>
      rw [hm] at h
      simp only [Except.map, Except.ok.injEq] at h
      rw [← h]
      simp only [List.length_map]
      rw [mapExcept_ok_length hm]
      simp [List.length_zip, hl]
  · rw [if_neg hl] at h
    exact absurd h (by simp)

/-- C5: in a `Constant` times `Constant` comparison both scalars are
broadcast to the row count declared by the left operand before coercion
and elementwise comparison; the right operand's declared replicate count
is never read — the result is identical for any two declared right counts
— and every successful result has exactly the left operand's count of
rows. -/
theorem constant_constant_comparison_left_count :
    (∀ (op : DataValueComparisonOperator) (s1 : DataValue) (n1 : Nat) (s2 : DataValue)
        (n2 n2' : Nat),
        DataArrayComparison.data_array_comparison_op op (.Constant s1 n1) (.Constant s2 n2)
          = DataArrayComparison.data_array_comparison_op op (.Constant s1 n1)
              (.Constant s2 n2'))
    ∧ (∀ (op : DataValueComparisonOperator) (s1 : DataValue) (n1 : Nat) (s2 : DataValue)
        (n2 : Nat) (r : Series),
        DataArrayComparison.data_array_comparison_op op (.Constant s1 n1) (.Constant s2 n2)
          = .ok r → r.values.length = n1) := by
  constructor
  · intro op s1 n1 s2 n2 n2'
    rfl
  · intro op s1 n1 s2 n2 r h
    cases op <;>
      (simp only [DataArrayComparison.data_array_comparison_op, arrow_array_utf8_op,
        DataValue.to_series_with_size, except_bind_ok] at h
       obtain ⟨ct, hct, h⟩ := except_bind_eq_ok h
       obtain ⟨la, hla, h⟩ := except_bind_eq_ok h
       obtain ⟨ra, hra, h⟩ := except_bind_eq_ok h
       have hlen := arrow_array_op_ok_length h
       have hcast := data_array_cast_ok_length hla
       simp only [List.length_replicate] at hcast
       omega)

/-- C5 witness: a three-row left constant against a seven-row right
constant compares as three rows. -/
theorem constant_constant_comparison_left_count_witness :
    (Series.mk .Boolean
        [.Boolean (some false), .Boolean (some false), .Boolean (some false)]).values.length
      = 3 := by
  exact constant_constant_comparison_left_count.2 .Eq (.Int64 (some 1)) 3 (.Int64 (some 2)) 7
    (Series.mk .Boolean [.Boolean (some false), .Boolean (some false), .Boolean (some false)])
    (by rfl)

/-- C1: a comparison with a `Constant` left operand and an `Array` right
operand applies the array-left kernel with the relational operator
mirrored — `Lt` becomes `Gt`, `LtEq` becomes `GtEq`, `Gt` becomes `Lt`,
`GtEq` becomes `LtEq`, while `Eq`, `NotEq`, `Like` and `NotLike` are
applied unchanged — so it returns a result exactly when the mirrored
array-left comparison does, and the same result; in particular
`compare(Lt, Constant(5), Array([1,10]))` equals
`compare(Gt, Array([1,10]), Constant(5))` equals `[false, true]`, so the
semantics of the original non-mirrored operator is preserved. -/
theorem constant_array_comparison_mirrors :
    (∀ (op : DataValueComparisonOperator) (s : DataValue) (n : Nat) (arr : Series)
        (r : Series),
        DataArrayComparison.data_array_comparison_op op (.Constant s n) (.Array arr) = .ok r ↔
        DataArrayComparison.data_array_comparison_op (mirror_comparison_operator op)
          (.Array arr) (.Constant s n) = .ok r)
    ∧ DataArrayComparison.data_array_comparison_op .Lt
        (.Constant (.Int64 (some 5)) 1)
        (.Array ⟨.Int64, [.Int64 (some 1), .Int64 (some 10)]⟩)
        = .ok ⟨.Boolean, [.Boolean (some false), .Boolean (some true)]⟩
    ∧ DataArrayComparison.data_array_comparison_op .Gt
        (.Array ⟨.Int64, [.Int64 (some 1), .Int64 (some 10)]⟩)
        (.Constant (.Int64 (some 5)) 1)
        = .ok ⟨.Boolean, [.Boolean (some false), .Boolean (some true)]⟩ := by
  refine ⟨?_, by rfl, by rfl⟩
  intro op s n arr r
  cases op <;>
    (simp only [DataArrayComparison.data_array_comparison_op, mirror_comparison_operator,
      Series.get_data_type, DataValue.to_series_with_size, List.replicate_one,
      except_bind_ok]
     cases hc : equal_coercion arr.dtype s.data_type with
     | error e => simp [hc, except_bind_error]
     | ok ct =>
       cases hsc : data_array_cast ⟨s.data_type, [s]⟩ ct <;>
         cases hac : data_array_cast arr ct <;>
           simp [hc, hsc, hac, except_bind_ok, except_bind_error])
